import Mathlib

/-!
Verification development for the Gap2Growth school-scheduling core:
time utilities, downtime detection, weekly aggregation, the activity
recommendation scorer, and the realtime session tracker.

The Python services are embedded shallowly:
* time-of-day values are triples of naturals (`Tm`), as produced by
  `datetime.strptime(...).time()`;
* `datetime`/`timedelta` deltas are carried as exact integer seconds;
  the source divides by 60 in IEEE doubles (`total_seconds()/60`) and
  truncates with `int(...)`, which for the second counts of a calendar
  day is exactly truncated integer division (`Int.tdiv _ 60`): the
  float quotient would have to sit within about `4e-14` of an integer
  on the wrong side to disagree, impossible for day-sized integer
  second counts divided by 60.  Comparisons of the float minute value
  against the integer threshold are embedded as exact comparisons of
  seconds against `60 * threshold`;
* database rows (timetable entries, activities, activity logs) are
  structures whose optional dictionary keys are `Option` fields;
* the wall clock (`datetime.now()`) is threaded as an explicit `now`
  parameter, and the module-level `DOWNTIME_THRESHOLD` environment
  constant (default 30) as an explicit `threshold` parameter;
* `random.shuffle` is an explicit list-to-list parameter, constrained to
  be a permutation in the theorems that quantify over shuffles.
-/

/-- A `datetime.time` value: hour, minute, second
(microseconds are always zero in this code base). -/
structure Tm where
  hour : ℕ
  minute : ℕ
  second : ℕ
deriving DecidableEq, Repr

/-- Seconds from midnight. -/
def Tm.toSec (t : Tm) : ℕ := t.hour * 3600 + t.minute * 60 + t.second

/-- Python compares `time` objects lexicographically by
(hour, minute, second). -/
def Tm.lexLt (a b : Tm) : Bool :=
  decide (a.hour < b.hour) ||
    (a.hour == b.hour &&
      (decide (a.minute < b.minute) ||
        (a.minute == b.minute && decide (a.second < b.second))))

/-- Non-strict lexicographic comparison of `time` objects. -/
def Tm.lexLe (a b : Tm) : Bool := Tm.lexLt a b || a == b

/-- Value of an ASCII digit character. -/
def digitVal (c : Char) : Option ℕ :=
  if c.isDigit then some (c.toNat - 48) else none

/-- One numeric `strptime` field: such a field is a regex alternation
that prefers a two-digit match (admissible per `twoOk`, mirroring e.g.
`(2[0-3]|[0-1]\d|\d)` for `%H`) and falls back, by backtracking, to a
one-digit match admissible per `oneOk`.  `k` is the parse continuation
for the rest of the format. -/
def parse2Field (twoOk oneOk : ℕ → Bool) (cs : List Char)
    (k : ℕ → List Char → Option Tm) : Option Tm :=
  match cs with
  | [] => none
  | c1 :: rest1 =>
    match digitVal c1 with
    | none => none
    | some d1 =>
      match rest1 with
      | c2 :: rest2 =>
        match digitVal c2 with
        | some d2 =>
          (if twoOk (10 * d1 + d2) then k (10 * d1 + d2) rest2 else none) <|>
            (if oneOk d1 then k d1 rest1 else none)
        | none => if oneOk d1 then k d1 rest1 else none
      | [] => if oneOk d1 then k d1 [] else none

/-- A literal `:` in a `strptime` format. -/
def expectColon (cs : List Char) (k : List Char → Option Tm) : Option Tm :=
  match cs with
  | ':' :: rest => k rest
  | _ => none

/-- A whitespace run in a `strptime` format (`\s+`). -/
def skipWs1 (cs : List Char) (k : List Char → Option Tm) : Option Tm :=
  match cs with
  | c :: rest =>
    if c.isWhitespace then k (rest.dropWhile Char.isWhitespace) else none
  | [] => none

/-- Embeds `datetime.strptime(s, '%H:%M:%S').time()`.  The `%S` regex admits
60 and 61, but the `datetime` constructor then raises `ValueError`
(caught by the caller), so only seconds up to 59 succeed. -/
def parseFmtHMS (cs : List Char) : Option Tm :=
  parse2Field (fun v => decide (v ≤ 23)) (fun _ => true) cs fun h cs1 =>
  expectColon cs1 fun cs2 =>
  parse2Field (fun v => decide (v ≤ 59)) (fun _ => true) cs2 fun m cs3 =>
  expectColon cs3 fun cs4 =>
  parse2Field (fun v => decide (v ≤ 61)) (fun _ => true) cs4 fun s cs5 =>
  if cs5.isEmpty && decide (s ≤ 59) then some ⟨h, m, s⟩ else none

/-- Embeds `datetime.strptime(s, '%H:%M').time()`. -/
def parseFmtHM (cs : List Char) : Option Tm :=
  parse2Field (fun v => decide (v ≤ 23)) (fun _ => true) cs fun h cs1 =>
  expectColon cs1 fun cs2 =>
  parse2Field (fun v => decide (v ≤ 59)) (fun _ => true) cs2 fun m cs3 =>
  if cs3.isEmpty then some ⟨h, m, 0⟩ else none

/-- Embeds `datetime.strptime(s, '%I:%M %p').time()`: `%I` is an hour 1-12
(`(1[0-2]|0[1-9]|[1-9])`), `%p` is a case-insensitive AM/PM marker, and
12 AM maps to hour 0 while 12 PM stays 12. -/
def parseFmtIMp (cs : List Char) : Option Tm :=
  parse2Field (fun v => decide (1 ≤ v) && decide (v ≤ 12))
      (fun d => decide (1 ≤ d)) cs fun h12 cs1 =>
  expectColon cs1 fun cs2 =>
  parse2Field (fun v => decide (v ≤ 59)) (fun _ => true) cs2 fun m cs3 =>
  skipWs1 cs3 fun cs4 =>
  match cs4 with
  | [p, mc] =>
    if mc.toLower == 'm' then
      if p.toLower == 'a' then some ⟨if h12 == 12 then 0 else h12, m, 0⟩
      else if p.toLower == 'p' then
        some ⟨if h12 == 12 then 12 else h12 + 12, m, 0⟩
      else none
    else none
  | _ => none

/-- Embeds `parse_time` from `downtime_service.py` (and the identical
`RealTimeDetector._parse_time`): try `%H:%M:%S`, `%H:%M`, `%I:%M %p`
in that order; empty or unparsable input yields `none`.  The
`isinstance(time_str, time)` branch does not arise here because every
caller passes a string. -/
def parse_time (s : String) : Option Tm :=
  if s == "" then none
  else parseFmtHMS s.data <|> parseFmtHM s.data <|> parseFmtIMp s.data

/-- Embeds `dict.get` on a possibly-missing time string followed by
`parse_time`: Python's `parse_time(None)` is `None`. -/
def parseTimeOpt (o : Option String) : Option Tm := o.bind parse_time

/-- Zero-padded two-digit rendering used by `strftime('%H:%M')`. -/
def pad2 (n : ℕ) : String :=
  if n < 10 then "0" ++ toString n else toString n

/-- Embeds `t.strftime('%H:%M')`. -/
def fmtHM (t : Tm) : String := pad2 t.hour ++ ":" ++ pad2 t.minute

/-- Python `str.lower()`: characterwise lowering (every string this
code base lowercases is ASCII, where Python and `Char.toLower` agree). -/
def strLower (s : String) : String := ⟨s.data.map Char.toLower⟩

/-- Embeds `calculate_gap_minutes` from `downtime_service.py`, in seconds:
the source returns the signed delta `end - start` as float minutes
(`total_seconds() / 60`; both branches of its sign test yield the same
signed value); we keep the exact value in seconds and divide by 60 at
each use site, as explained in the header. -/
def calculate_gap_seconds (start_time end_time : Tm) : ℤ :=
  let startSec : ℤ := start_time.toSec
  let endSec : ℤ := end_time.toSec
  if endSec < startSec then (startSec - endSec) * (-1)
  else endSec - startSec

/-- Python `int(x.total_seconds() / 60)` on an exact delta of `s`
seconds: truncated division by 60. -/
def secondsToMinutes (s : ℤ) : ℤ := Int.tdiv s 60

/-- Embeds `is_time_in_range` from `downtime_service.py`: half-open interval
test `start <= check < end`. -/
def is_time_in_range (check_time start_time end_time : Tm) : Bool :=
  Tm.lexLe start_time check_time && Tm.lexLt check_time end_time

/-- A row of the `timetable` table as the detection core reads it:
every field is accessed with `dict.get`, so each is optional (`none`
models both a missing key and a database `NULL`). -/
structure TimetableEntry where
  id : ℕ
  day : Option String
  status : Option String
  start_time : Option String
  end_time : Option String
deriving DecidableEq, Repr

/-- A free-time slot dictionary produced by the detectors.  The
`remaining_minutes` / `starts_in_minutes` keys are absent until
`get_current_free_slot` / `get_upcoming_free_slots` attach them. -/
structure FreeSlot where
  course : String
  day : String
  start_time : String
  end_time : String
  duration_minutes : ℤ
  reason : String
  is_current : Bool
  is_upcoming : Bool
  remaining_minutes : Option ℤ
  starts_in_minutes : Option ℤ
deriving DecidableEq, Repr

/-- The filter of `detect_downtime_for_course`:
`entry.get('day', '').lower() == day.lower() and
 entry.get('status', 'scheduled').lower() == 'scheduled'`. -/
def entryIsScheduledOn (day : String) (e : TimetableEntry) : Bool :=
  strLower (e.day.getD "") == strLower day &&
    strLower (e.status.getD "scheduled") == "scheduled"

/-- The sort key of `detect_downtime_for_course`:
`parse_time(x.get('start_time', '00:00')) or time(0, 0)`. -/
def sortKeyTm (e : TimetableEntry) : Tm :=
  (parse_time (e.start_time.getD "00:00")).getD ⟨0, 0, 0⟩

/-- The ordering `day_entries.sort(key=...)` sorts by: comparison of
the parsed start-time keys.  Python's `list.sort` is stable, and a
stable sort's output is uniquely determined by the key order and the
input order, so it is modelled throughout by Mathlib's (stable,
structurally recursive) `List.insertionSort`. -/
def startKeyLe (x y : TimetableEntry) : Prop :=
  Tm.lexLe (sortKeyTm x) (sortKeyTm y) = true

instance : DecidableRel startKeyLe :=
  fun _ _ => inferInstanceAs (Decidable (_ = true))

/-- Embeds `_is_slot_current` against an explicit clock. -/
def is_slot_current (now start_time end_time : Tm) : Bool :=
  is_time_in_range now start_time end_time

/-- Embeds `_is_slot_upcoming` against an explicit clock:
`start_time > current`. -/
def is_slot_upcoming (now start_time : Tm) : Bool :=
  Tm.lexLt now start_time

/-- The free-slot dictionary built for a timetable gap between the end
`ce` of one class and the start `ns` of the next. -/
def mkGapSlot (course day : String) (now ce ns : Tm) : FreeSlot :=
  { course := course
    day := day
    start_time := fmtHM ce
    end_time := fmtHM ns
    duration_minutes := secondsToMinutes (calculate_gap_seconds ce ns)
    reason := "timetable_gap"
    is_current := is_slot_current now ce ns
    is_upcoming := is_slot_upcoming now ce
    remaining_minutes := none
    starts_in_minutes := none }

/-- The body of the adjacent-pair loop of `detect_downtime_for_course`
for one pair `(current_class, next_class)`: emit a gap slot when both
boundary times parse and the gap meets the threshold
(`gap_minutes >= DOWNTIME_THRESHOLD`, i.e. `gap_seconds >= 60·thr`). -/
def gapSlotOfPair (course day : String) (threshold : ℤ) (now : Tm)
    (p : TimetableEntry × TimetableEntry) : Option FreeSlot :=
  match parseTimeOpt p.1.end_time, parseTimeOpt p.2.start_time with
  | some ce, some ns =>
    if 60 * threshold ≤ calculate_gap_seconds ce ns then
      some (mkGapSlot course day now ce ns)
    else none
  | _, _ => none

/-- The `for i in range(len(day_entries) - 1)` loop of
`detect_downtime_for_course` over an already filtered and sorted list. -/
def gapSlotsAux (course day : String) (threshold : ℤ) (now : Tm) :
    List TimetableEntry → List FreeSlot
  | a :: b :: rest =>
    (gapSlotOfPair course day threshold now (a, b)).toList ++
      gapSlotsAux course day threshold now (b :: rest)
  | _ => []

/-- Embeds `detect_downtime_for_course` from `downtime_service.py`, with the
course's timetable rows, the threshold and the clock passed explicitly. -/
def detect_downtime_for_course (timetable : List TimetableEntry)
    (course day : String) (threshold : ℤ) (now : Tm) : List FreeSlot :=
  if timetable.isEmpty then []
  else
    let day_entries := timetable.filter (entryIsScheduledOn day)
    if day_entries.isEmpty then []
    else
      let sorted := day_entries.insertionSort startKeyLe
      gapSlotsAux course day threshold now sorted

/-- The filter of `detect_cancelled_class_slots`:
`entry.get('day', '').lower() == day.lower() and
 entry.get('status', '').lower() == 'cancelled'`. -/
def entryIsCancelledOn (day : String) (e : TimetableEntry) : Bool :=
  strLower (e.day.getD "") == strLower day &&
    strLower (e.status.getD "") == "cancelled"

/-- Embeds `detect_cancelled_class_slots` from `downtime_service.py`. -/
def detect_cancelled_class_slots (timetable : List TimetableEntry)
    (course day : String) (threshold : ℤ) (now : Tm) : List FreeSlot :=
  if timetable.isEmpty then []
  else
    (timetable.filter (entryIsCancelledOn day)).filterMap fun e =>
      match parseTimeOpt e.start_time, parseTimeOpt e.end_time with
      | some st, some et =>
        if 60 * threshold ≤ calculate_gap_seconds st et then
          some { course := course
                 day := day
                 start_time := fmtHM st
                 end_time := fmtHM et
                 duration_minutes := secondsToMinutes (calculate_gap_seconds st et)
                 reason := "class_cancelled"
                 is_current := is_slot_current now st et
                 is_upcoming := is_slot_upcoming now st
                 remaining_minutes := none
                 starts_in_minutes := none }
        else none
      | _, _ => none

/-- Python string `<`: lexicographic comparison by code point, a
proper prefix comparing smaller. -/
def charListLt : List Char → List Char → Bool
  | [], [] => false
  | [], _ :: _ => true
  | _ :: _, [] => false
  | a :: as, b :: bs =>
    if a < b then true else if b < a then false else charListLt as bs

/-- Python string `<` on `String`. -/
def strLt (a b : String) : Bool := charListLt a.data b.data

/-- The ordering `all_slots.sort(key=lambda x: x.get('start_time', '00:00'))`
sorts by: lexicographic comparison of the `'HH:MM'` start-time strings
(every slot dictionary carries the key). -/
def slotStartLe (x y : FreeSlot) : Prop :=
  strLt x.start_time y.start_time = true ∨ x.start_time = y.start_time

instance : DecidableRel slotStartLe :=
  fun _ _ => inferInstanceAs (Decidable (_ ∨ _))

/-- Embeds `detect_all_downtime_for_course`: gap slots then cancelled slots,
stably sorted by the `'HH:MM'` start-time string. -/
def detect_all_downtime_for_course (timetable : List TimetableEntry)
    (course day : String) (threshold : ℤ) (now : Tm) : List FreeSlot :=
  (detect_downtime_for_course timetable course day threshold now ++
      detect_cancelled_class_slots timetable course day threshold now).insertionSort
    slotStartLe

/-- Embeds `_calculate_remaining_time` from `downtime_service.py`. -/
def calculate_remaining_time (end_time_str : String) (now : Tm) : ℤ :=
  match parse_time end_time_str with
  | none => 0
  | some et =>
    max 0 (secondsToMinutes ((et.toSec : ℤ) - (now.toSec : ℤ)))

/-- Embeds `_calculate_time_until` from `downtime_service.py`. -/
def calculate_time_until (start_time_str : String) (now : Tm) : ℤ :=
  match parse_time start_time_str with
  | none => 0
  | some st =>
    max 0 (secondsToMinutes ((st.toSec : ℤ) - (now.toSec : ℤ)))

/-- Embeds `get_current_free_slot`: the first slot of today's `detect_all`
output whose `is_current` flag is set, with `remaining_minutes`
attached. -/
def get_current_free_slot (timetable : List TimetableEntry)
    (course day : String) (threshold : ℤ) (now : Tm) : Option FreeSlot :=
  ((detect_all_downtime_for_course timetable course day threshold now).find?
      (fun s => s.is_current)).map
    fun s => { s with remaining_minutes := some (calculate_remaining_time s.end_time now) }

/-- Embeds `get_upcoming_free_slots`: the upcoming slots of today's
`detect_all` output with `starts_in_minutes` attached, truncated to
`limit`. -/
def get_upcoming_free_slots (timetable : List TimetableEntry)
    (course day : String) (threshold : ℤ) (now : Tm) (limit : ℕ) :
    List FreeSlot :=
  (((detect_all_downtime_for_course timetable course day threshold now).filter
        (fun s => s.is_upcoming)).map
      fun s => { s with starts_in_minutes := some (calculate_time_until s.start_time now) }).take
    limit

/-- The per-day record of the weekly summary. -/
structure DaySummary where
  slots : List FreeSlot
  total_free_minutes : ℤ
  slot_count : ℕ
deriving DecidableEq, Repr

/-- The canonical day-name list of `get_weekly_free_time_summary`. -/
def weekDays : List String :=
  ["Monday", "Tuesday", "Wednesday", "Thursday", "Friday", "Saturday", "Sunday"]

/-- Embeds `get_weekly_free_time_summary`: one entry per canonical day name,
in order (a Python dict built by inserting the seven days in order). -/
def get_weekly_free_time_summary (timetable : List TimetableEntry)
    (course : String) (threshold : ℤ) (now : Tm) :
    List (String × DaySummary) :=
  weekDays.map fun day =>
    let slots := detect_all_downtime_for_course timetable course day threshold now
    (day, { slots := slots
            total_free_minutes := (slots.map (fun s => s.duration_minutes)).sum
            slot_count := slots.length })

/-- A row of the `activities` table.  `course` is `""` for a database
`NULL` (Python reads it with `activity.get('course', '')` and treats
`None` and `''` alike as falsy); the deduplication in
`get_activities_by_course` indexes `activity['id']` directly, so `id`
is always present. -/
structure Activity where
  id : ℕ
  title : String
  category : String
  duration_minutes : ℤ
  difficulty : String
  mode : String
  course : String
deriving DecidableEq, Repr

/-- An activity dictionary with the `relevance_score` key attached
(`{**activity, 'relevance_score': score}`). -/
structure ScoredActivity where
  activity : Activity
  relevance_score : ℤ
deriving DecidableEq, Repr

/-- The ordering of `sort(key=lambda x: x['relevance_score'], reverse=True)`:
descending by score.  Python's stable sort with `reverse=True` keeps
equal-score elements in their pre-sort (post-shuffle) order, which the
stable `insertionSort` with this relation reproduces. -/
def scoreGe (x y : ScoredActivity) : Prop :=
  y.relevance_score ≤ x.relevance_score

instance : DecidableRel scoreGe :=
  fun _ _ => inferInstanceAs (Decidable (_ ≤ _))

instance : IsTotal ScoredActivity scoreGe :=
  ⟨fun a b => le_total b.relevance_score a.relevance_score⟩

instance : IsTrans ScoredActivity scoreGe :=
  ⟨fun _ _ _ h1 h2 => le_trans h2 h1⟩

/-- The course increment of `calculate_activity_score`:
`+30 if activity_course and activity_course.lower() == course.lower()`,
`elif not activity_course: +15`. -/
def courseBonus (a : Activity) (course : String) : ℤ :=
  if a.course ≠ "" ∧ strLower a.course = strLower course then 30
  else if a.course = "" then 15
  else 0

/-- The category increment of `calculate_activity_score`:
`+20 if category and activity.get('category', '').lower() == category.lower()`
(a `None` or empty filter is falsy and skips the test). -/
def categoryBonus (a : Activity) (category : Option String) : ℤ :=
  match category with
  | some c => if c ≠ "" ∧ strLower a.category = strLower c then 20 else 0
  | none => 0

/-- The difficulty increment of `calculate_activity_score` (`+15`). -/
def difficultyBonus (a : Activity) (difficulty : Option String) : ℤ :=
  match difficulty with
  | some d => if d ≠ "" ∧ strLower a.difficulty = strLower d then 15 else 0
  | none => 0

/-- The mode increment of `calculate_activity_score` (`+15`). -/
def modeBonus (a : Activity) (mode : Option String) : ℤ :=
  match mode with
  | some m => if m ≠ "" ∧ strLower a.mode = strLower m then 15 else 0
  | none => 0

/-- The efficiency increment of `calculate_activity_score`:
`min(int(efficiency * 20), 20)` when both durations are positive.  The
source computes `efficiency = activity_duration / duration_minutes` in
IEEE doubles; the embedding uses the exact truncated quotient
`(20 * duration).tdiv budget` (see the header note; for day-scale
durations the two agree). -/
def efficiencyBonus (a : Activity) (duration_minutes : ℤ) : ℤ :=
  if 0 < a.duration_minutes ∧ 0 < duration_minutes then
    min (Int.tdiv (20 * a.duration_minutes) duration_minutes) 20
  else 0

/-- Embeds `calculate_activity_score` from `recommendation_service.py`: the
source initializes `score = 0` and performs five conditional
increments (`score += ...`) whose conditions and amounts are mutually
independent; the embedding is the sum of the five increments, one
definition per `+=` statement. -/
def calculate_activity_score (a : Activity) (course : String)
    (duration_minutes : ℤ) (category difficulty mode : Option String) : ℤ :=
  courseBonus a course + categoryBonus a category + difficultyBonus a difficulty
    + modeBonus a mode + efficiencyBonus a duration_minutes

/-- Embeds `get_recommended_activities` from `recommendation_service.py`, with
the activity pool (fetched by the database layer) and the
`random.shuffle` step passed explicitly.  The final
`sort(key=..., reverse=True)` is Python's stable sort, descending. -/
def get_recommended_activities (all_activities : List Activity)
    (course : String) (duration_minutes : ℤ)
    (category difficulty mode : Option String)
    (shuffle : List ScoredActivity → List ScoredActivity) :
    List ScoredActivity :=
  if all_activities.isEmpty then []
  else
    let suitable_activities :=
      all_activities.filter fun a => a.duration_minutes ≤ duration_minutes
    if suitable_activities.isEmpty then []
    else
      let scored_activities := suitable_activities.map fun a =>
        { activity := a
          relevance_score :=
            calculate_activity_score a course duration_minutes category difficulty mode }
      (shuffle scored_activities).insertionSort scoreGe

/-- A row of the `activity_logs` table as the recommendation reads it:
`activity_id` via `log.get('activity_id')`, the joined activity's
category via `log.get('activities', {}).get('category', 'Learning')`. -/
structure ActivityLog where
  activity_id : Option ℕ
  status : String
  activities_category : Option String
deriving DecidableEq, Repr

/-- Embeds `[log for log in activity_logs if log.get('status') == 'completed']`.
`get_activity_logs_by_student` orders logs by `start_time` descending,
so the list (and this filtered sublist) is most recent first. -/
def completedLogs (logs : List ActivityLog) : List ActivityLog :=
  logs.filter fun l => l.status == "completed"

/-- The `category_counts` dictionary built by
`get_personalized_recommendations`, as an insertion-ordered
association list. -/
def bumpCount : List (String × ℕ) → String → List (String × ℕ)
  | [], k => [(k, 1)]
  | (k', c) :: rest, k =>
    if k' == k then (k', c + 1) :: rest else (k', c) :: bumpCount rest k

/-- Count the completed logs per category
(`activity.get('category', 'Learning')`). -/
def categoryCounts (logs : List ActivityLog) : List (String × ℕ) :=
  (completedLogs logs).foldl
    (fun acc l => bumpCount acc (l.activities_category.getD "Learning")) []

/-- Embeds `max(category_counts, key=category_counts.get)` over an
insertion-ordered dict: the first key attaining the maximal count;
`None` when the dict is empty. -/
def maxCountKey (counts : List (String × ℕ)) : Option String :=
  (counts.foldl
      (fun best p =>
        match best with
        | none => some p
        | some b => if p.2 > b.2 then some p else some b)
      none).map Prod.fst

/-- The `preferred_category` computed by
`get_personalized_recommendations`. -/
def preferredCategory (logs : List ActivityLog) : Option String :=
  maxCountKey (categoryCounts logs)

/-- Embeds `completed_ids = [log.get('activity_id') for log in completed_activities[-10:]]`:
the activity ids of the *last ten elements* of the completed-log list.
Because the list is most recent first, these are the ten oldest
completed logs. -/
def recentCompletedIds (logs : List ActivityLog) : List (Option ℕ) :=
  ((completedLogs logs).drop ((completedLogs logs).length - 10)).map
    fun l => l.activity_id

/-- Embeds `get_personalized_recommendations` from `recommendation_service.py`,
with the student's logs, the activity pool and the shuffle step passed
explicitly. -/
def get_personalized_recommendations (logs : List ActivityLog)
    (all_activities : List Activity) (course : String)
    (duration_minutes : ℤ)
    (shuffle : List ScoredActivity → List ScoredActivity) :
    List ScoredActivity :=
  let recommendations :=
    get_recommended_activities all_activities course duration_minutes
      (preferredCategory logs) none none shuffle
  let filtered_recommendations :=
    recommendations.filter fun r =>
      !((recentCompletedIds logs).contains (some r.activity.id))
  if filtered_recommendations.isEmpty then recommendations
  else filtered_recommendations

/-- The value stored in `RealTimeDetector.active_sessions`:
`{'start': ..., 'end': ..., 'notified': True}`. -/
structure SessionInfo where
  start : String
  stop : String
  notified : Bool
deriving DecidableEq, Repr

/-- A user row as `_detect_current_free_time` reads it
(`student.get('id')`, `student.get('course')`; an absent or `NULL`
course is the falsy `""`). -/
structure StudentUser where
  id : ℕ
  course : String
deriving DecidableEq, Repr

/-- The dictionary returned by `RealTimeDetector._get_current_free_slot`. -/
structure RtSlot where
  start_time : String
  end_time : String
  duration_minutes : ℤ
  reason : String
deriving DecidableEq, Repr

/-- Embeds `RealTimeDetector._calculate_duration`: minutes between two time
strings, `0` if either fails to parse (no clamping). -/
def rt_calculate_duration (start_str end_str : String) : ℤ :=
  match parse_time start_str, parse_time end_str with
  | some st, some et => secondsToMinutes ((et.toSec : ℤ) - (st.toSec : ℤ))
  | _, _ => 0

/-- The gap loop of `RealTimeDetector._get_current_free_slot`: first
adjacent pair of scheduled classes whose gap contains `current_time`
and lasts at least 30 minutes (`duration >= 30`, duration computed from
the re-formatted `'HH:MM'` strings). -/
def rtFirstGapSlot (now : Tm) : List TimetableEntry → Option RtSlot
  | a :: b :: rest =>
    (match parseTimeOpt a.end_time, parseTimeOpt b.start_time with
     | some ce, some ns =>
       if Tm.lexLe ce now && Tm.lexLt now ns then
         let duration := rt_calculate_duration (fmtHM ce) (fmtHM ns)
         if 30 ≤ duration then
           some { start_time := fmtHM ce
                  end_time := fmtHM ns
                  duration_minutes := duration
                  reason := "timetable_gap" }
         else rtFirstGapSlot now (b :: rest)
       else rtFirstGapSlot now (b :: rest)
     | _, _ => rtFirstGapSlot now (b :: rest))
  | _ => none

/-- The cancelled-entry loop of `RealTimeDetector._get_current_free_slot`:
first cancelled entry whose span contains `current_time` (no duration
threshold; the original start/end strings are returned). -/
def rtFirstCancelledCurrent (now : Tm) : List TimetableEntry → Option RtSlot
  | e :: rest =>
    (match parseTimeOpt e.start_time, parseTimeOpt e.end_time with
     | some st, some et =>
       if Tm.lexLe st now && Tm.lexLt now et then
         some { start_time := e.start_time.getD ""
                end_time := e.end_time.getD ""
                duration_minutes :=
                  rt_calculate_duration (e.start_time.getD "") (e.end_time.getD "")
                reason := "class_cancelled" }
       else rtFirstCancelledCurrent now rest
     | _, _ => rtFirstCancelledCurrent now rest)
  | [] => none

/-- Embeds `RealTimeDetector._get_current_free_slot`.  Status comparisons here
are exact (`e.get('status') == 'scheduled'` / `== 'cancelled'`), unlike
the case-insensitive ones in `downtime_service.py`.  The sort key has
no `or time(0, 0)` fallback in the source (unparsable keys would raise
`TypeError` during sorting); the embedding supplies the same fallback,
and every theorem below only exercises parseable entries. -/
def rt_get_current_free_slot (timetable : List TimetableEntry)
    (day : String) (now : Tm) : Option RtSlot :=
  if timetable.isEmpty then none
  else
    let day_entries := timetable.filter fun e =>
      strLower (e.day.getD "") == strLower day && e.status == some "scheduled"
    let sorted := day_entries.insertionSort startKeyLe
    match rtFirstGapSlot now sorted with
    | some slot => some slot
    | none =>
      rtFirstCancelledCurrent now
        (timetable.filter fun e =>
          strLower (e.day.getD "") == strLower day && e.status == some "cancelled")

/-- Embeds `session_key = f"{student_id}_{current_day}"`. -/
def session_key (student_id : ℕ) (day : String) : String :=
  toString student_id ++ "_" ++ day

/-- The notification text created by `_detect_current_free_time`. -/
def freeTimeMessage (slot : RtSlot) : String :=
  "⏰ Free time now: " ++ toString slot.duration_minutes ++ " minutes until " ++
    slot.end_time ++ ". Recommended activities available!"

/-- Embeds `RealTimeDetector._detect_current_free_time` as a state transition:
given the `active_sessions` map, the student list, the per-course
timetables, the current day name and clock, it returns the updated
session map and the list of `create_notification` calls made for the
"free time now" message.  (The subsequent `_auto_assign_activity` call
is a further side effect on other tables and emits its own separate
notification; it neither reads nor writes `active_sessions` and is not
modelled here.)  A student is skipped when their course is falsy or
when `session_key` is already present in the map; otherwise, if a free
slot is current, the key is inserted with the slot window and the
notification is emitted. -/
def detect_current_free_time (sessions : List (String × SessionInfo))
    (students : List StudentUser)
    (timetables : List (String × List TimetableEntry))
    (day : String) (now : Tm) :
    List (String × SessionInfo) × List (ℕ × String) :=
  students.foldl
    (fun acc student =>
      if student.course == "" then acc
      else
        let key := session_key student.id day
        if (acc.1.lookup key).isSome then acc
        else
          match rt_get_current_free_slot
              ((timetables.lookup student.course).getD []) day now with
          | none => acc
          | some slot =>
            (acc.1 ++ [(key, { start := slot.start_time
                               stop := slot.end_time
                               notified := true })],
             acc.2 ++ [(student.id, freeTimeMessage slot)]))
    (sessions, [])

/-- The category, difficulty, mode and efficiency components of
`calculate_activity_score`: the part of the score that does not depend
on the course-match bonus. -/
def nonCourseScore (a : Activity) (duration_minutes : ℤ)
    (category difficulty mode : Option String) : ℤ :=
  categoryBonus a category + difficultyBonus a difficulty + modeBonus a mode
    + efficiencyBonus a duration_minutes

/-- The scored candidate pool of `get_recommended_activities` before
the shuffle-and-sort step: the budget-respecting activities, each
paired with its relevance score. -/
def scoredOf (all_activities : List Activity) (course : String)
    (duration_minutes : ℤ) (category difficulty mode : Option String) :
    List ScoredActivity :=
  (all_activities.filter fun a => a.duration_minutes ≤ duration_minutes).map
    fun a =>
      { activity := a
        relevance_score :=
          calculate_activity_score a course duration_minutes category difficulty mode }

/-- Concrete timetable rows used to instantiate the theorems below
(the scenario of the specification: Monday 09:00-10:00 scheduled,
Monday 11:00-12:00 scheduled, Monday 13:00-14:00 cancelled). -/
def entryMon9 : TimetableEntry :=
  ⟨1, some "Monday", some "scheduled", some "09:00", some "10:00"⟩

/-- Second scheduled Monday class, 11:00-12:00. -/
def entryMon11 : TimetableEntry :=
  ⟨2, some "Monday", some "scheduled", some "11:00", some "12:00"⟩

/-- A cancelled Monday class, 13:00-14:00. -/
def entryMonCancelled : TimetableEntry :=
  ⟨3, some "Monday", some "cancelled", some "13:00", some "14:00"⟩

/-- A Monday class at 10:30-11:00: the gap after `entryMon9` is then
exactly 30 minutes (the default threshold). -/
def entryMon1030 : TimetableEntry :=
  ⟨4, some "Monday", some "scheduled", some "10:30", some "11:00"⟩

/-- A Monday class at 11:29-12:00: the gap after `entryMon1030` is
29 minutes, one short of the default threshold. -/
def entryMon1129 : TimetableEntry :=
  ⟨5, some "Monday", some "scheduled", some "11:29", some "12:00"⟩

/-- A department activity of the requested course, 10 minutes long. -/
def quizActivity : Activity :=
  ⟨100, "Quiz", "Learning", 10, "Easy", "Solo", "CS"⟩

/-- An activity whose owning course is the string `"General"`
(universal per the data model). -/
def generalActivity : Activity :=
  ⟨7, "Puzzle", "Learning", 0, "Easy", "Solo", "General"⟩

/-- Eleven completed activity logs, most recent first (the order
`get_activity_logs_by_student` returns): the most recent completed
activity is id 100, the ten older ones are ids 1..10. -/
def elevenCompletedLogs : List ActivityLog :=
  [⟨some 100, "completed", some "Learning"⟩,
   ⟨some 1, "completed", some "Learning"⟩,
   ⟨some 2, "completed", some "Learning"⟩,
   ⟨some 3, "completed", some "Learning"⟩,
   ⟨some 4, "completed", some "Learning"⟩,
   ⟨some 5, "completed", some "Learning"⟩,
   ⟨some 6, "completed", some "Learning"⟩,
   ⟨some 7, "completed", some "Learning"⟩,
   ⟨some 8, "completed", some "Learning"⟩,
   ⟨some 9, "completed", some "Learning"⟩,
   ⟨some 10, "completed", some "Learning"⟩]

/-- A recorded realtime session for student 7 on Monday covering the
08:00-09:00 window. -/
def mondaySession : List (String × SessionInfo) :=
  [("7_Monday", ⟨"08:00", "09:00", true⟩)]

/-- Student 7 of course CS. -/
def student7 : StudentUser := ⟨7, "CS"⟩

/-- The per-course timetable map used by the realtime theorems. -/
def csTimetables : List (String × List TimetableEntry) :=
  [("CS", [entryMon9, entryMon11, entryMonCancelled])]

/-- The 10:00-11:00 gap slot `_get_current_free_slot` finds at 10:30
on the `csTimetables` Monday timetable. -/
def gapSlot10to11 : RtSlot := ⟨"10:00", "11:00", 60, "timetable_gap"⟩

/-! ### Helper lemmas -/

/-- A nonpositive second count yields a nonpositive truncated minute
count. -/
theorem secondsToMinutes_nonpos {s : ℤ} (h : s ≤ 0) : secondsToMinutes s ≤ 0 := by
  unfold secondsToMinutes
  have h1 : 0 ≤ (-s).tdiv 60 := Int.tdiv_nonneg (by omega) (by norm_num)
  rw [Int.neg_tdiv] at h1
  omega

/-- C9: for every course and timetable (including one with no entries
at all), `get_weekly_free_time_summary` returns exactly the seven
canonical day names as keys, in order, each mapped to that day's slot
list, its slot count and its total free minutes; with an empty
timetable every day carries an empty slot list and zero totals. -/
theorem weekly_summary_has_seven_days (timetable : List TimetableEntry)
    (course : String) (threshold : ℤ) (now : Tm) :
    (get_weekly_free_time_summary timetable course threshold now).map Prod.fst
        = ["Monday", "Tuesday", "Wednesday", "Thursday", "Friday", "Saturday", "Sunday"]
    ∧ (get_weekly_free_time_summary timetable course threshold now).length = 7
    ∧ (get_weekly_free_time_summary timetable course threshold now).Forall
        (fun p =>
          p.2.slots = detect_all_downtime_for_course timetable course p.1 threshold now
          ∧ p.2.total_free_minutes = (p.2.slots.map (fun s => s.duration_minutes)).sum
          ∧ p.2.slot_count = p.2.slots.length)
    ∧ (get_weekly_free_time_summary [] course threshold now).Forall
        (fun p => p.2.slots = [] ∧ p.2.total_free_minutes = 0 ∧ p.2.slot_count = 0) := by
  refine ⟨?_, ?_, ?_, ?_⟩ <;>
    simp [get_weekly_free_time_summary, weekDays, List.Forall,
      detect_all_downtime_for_course, detect_downtime_for_course,
      detect_cancelled_class_slots]

/-- C10: the minute counters attached to slots are clamped to be
non-negative: `_calculate_remaining_time` and `_calculate_time_until`
always return a value `≥ 0`, return `0` on an unparsable time string,
and return `0` when the target time is not after `now`; consequently
`get_current_free_slot` attaches a non-negative `remaining_minutes`
and `get_upcoming_free_slots` attaches non-negative
`starts_in_minutes`. -/
theorem minute_counters_clamped_nonneg :
    (∀ (s : String) (now : Tm),
        0 ≤ calculate_remaining_time s now ∧ 0 ≤ calculate_time_until s now)
    ∧ (∀ (s : String) (now : Tm), parse_time s = none →
        calculate_remaining_time s now = 0 ∧ calculate_time_until s now = 0)
    ∧ (∀ (s : String) (now t : Tm), parse_time s = some t →
        t.toSec ≤ now.toSec →
        calculate_remaining_time s now = 0 ∧ calculate_time_until s now = 0)
    ∧ (∀ (timetable : List TimetableEntry) (course day : String)
        (threshold : ℤ) (now : Tm) (slot : FreeSlot),
        get_current_free_slot timetable course day threshold now = some slot →
        ∃ r, slot.remaining_minutes = some r ∧ 0 ≤ r)
    ∧ (∀ (timetable : List TimetableEntry) (course day : String)
        (threshold : ℤ) (now : Tm) (limit : ℕ) (slot : FreeSlot),
        slot ∈ get_upcoming_free_slots timetable course day threshold now limit →
        ∃ r, slot.starts_in_minutes = some r ∧ 0 ≤ r) := by
  have hnn : ∀ (s : String) (now : Tm),
      0 ≤ calculate_remaining_time s now ∧ 0 ≤ calculate_time_until s now := by
    intro s now
    unfold calculate_remaining_time calculate_time_until
    cases parse_time s <;> simp
  have hzero : ∀ (s : String) (now t : Tm), parse_time s = some t →
      t.toSec ≤ now.toSec →
      calculate_remaining_time s now = 0 ∧ calculate_time_until s now = 0 := by
    intro s now t hp hle
    unfold calculate_remaining_time calculate_time_until
    rw [hp]
    dsimp only
    have hd : ((t.toSec : ℤ) - (now.toSec : ℤ)) ≤ 0 := by omega
    have h2 := secondsToMinutes_nonpos hd
    exact ⟨max_eq_left h2, max_eq_left h2⟩
  refine ⟨hnn, ?_, hzero, ?_, ?_⟩
  · intro s now hp
    unfold calculate_remaining_time calculate_time_until
    rw [hp]
    exact ⟨rfl, rfl⟩
  · intro timetable course day threshold now slot h
    unfold get_current_free_slot at h
    obtain ⟨s0, _, rfl⟩ := Option.map_eq_some'.mp h
    exact ⟨_, rfl, (hnn _ now).1⟩
  · intro timetable course day threshold now limit slot h
    unfold get_upcoming_free_slots at h
    have h1 := List.mem_of_mem_take h
    obtain ⟨s0, _, rfl⟩ := List.mem_map.mp h1
    exact ⟨_, rfl, (hnn _ now).2⟩

/-- Witness for `minute_counters_clamped_nonneg` at concrete inputs:
an unparsable string, a time not after "now", a current slot at 10:30
and the upcoming-slot list at 09:30, on the three-entry Monday
timetable. -/
theorem minute_counters_clamped_nonneg_witness :
    (calculate_remaining_time "banana" ⟨10, 0, 0⟩ = 0
      ∧ calculate_time_until "banana" ⟨10, 0, 0⟩ = 0)
    ∧ (calculate_remaining_time "09:00" ⟨10, 0, 0⟩ = 0
      ∧ calculate_time_until "09:00" ⟨10, 0, 0⟩ = 0)
    ∧ (∃ r, (⟨"CS", "Monday", "10:00", "11:00", 60, "timetable_gap", true, false,
          some 30, none⟩ : FreeSlot).remaining_minutes = some r ∧ 0 ≤ r)
    ∧ (∃ r, (⟨"CS", "Monday", "13:00", "14:00", 60, "class_cancelled", false, true,
          none, some 210⟩ : FreeSlot).starts_in_minutes = some r ∧ 0 ≤ r) :=
  ⟨minute_counters_clamped_nonneg.2.1 "banana" ⟨10, 0, 0⟩ (by decide),
   minute_counters_clamped_nonneg.2.2.1 "09:00" ⟨10, 0, 0⟩ ⟨9, 0, 0⟩ (by decide) (by decide),
   minute_counters_clamped_nonneg.2.2.2.1 [entryMon9, entryMon11, entryMonCancelled]
     "CS" "Monday" 30 ⟨10, 30, 0⟩ _ (by decide),
   minute_counters_clamped_nonneg.2.2.2.2 [entryMon9, entryMon11, entryMonCancelled]
     "CS" "Monday" 30 ⟨9, 30, 0⟩ 5 _ (by decide)⟩

/-- C3 counterexample: an activity whose owning course is the string
`"General"` (universal in the data model) receives *no* base bonus
from `calculate_activity_score` when the requested course is a
non-matching `"CS"` — its score is `0`, not the claimed `15`
(`activity.get('course', '')` is the truthy string `"General"`, so the
`elif not activity_course` branch granting `+15` is never reached). -/
theorem general_activity_gets_no_universal_bonus :
    calculate_activity_score generalActivity "CS" 30 none none none = 0
    ∧ calculate_activity_score generalActivity "CS" 30 none none none ≠ 15 := by
  decide

/-- C3 (amended): the `+15` universal bonus applies exactly to an
activity whose course is empty/null; an activity with a non-empty
course (including `"General"`) gets `+30` when it matches the
requested course case-insensitively and no base bonus otherwise — so
the full score is the base course bonus plus the course-independent
components (`nonCourseScore`). -/
theorem course_bonus_characterization (a : Activity) (course : String)
    (duration_minutes : ℤ) (category difficulty mode : Option String) :
    (a.course = "" →
      calculate_activity_score a course duration_minutes category difficulty mode
        = 15 + nonCourseScore a duration_minutes category difficulty mode)
    ∧ (a.course ≠ "" → strLower a.course = strLower course →
      calculate_activity_score a course duration_minutes category difficulty mode
        = 30 + nonCourseScore a duration_minutes category difficulty mode)
    ∧ (a.course ≠ "" → strLower a.course ≠ strLower course →
      calculate_activity_score a course duration_minutes category difficulty mode
        = nonCourseScore a duration_minutes category difficulty mode) := by
  have hsum : calculate_activity_score a course duration_minutes category difficulty mode
      = courseBonus a course
        + nonCourseScore a duration_minutes category difficulty mode := by
    unfold calculate_activity_score nonCourseScore
    ring
  refine ⟨fun h => ?_, fun h1 h2 => ?_, fun h1 h2 => ?_⟩ <;>
    rw [hsum] <;> unfold courseBonus
  · rw [if_neg (show ¬(a.course ≠ "" ∧ strLower a.course = strLower course) from
        fun hc => hc.1 h), if_pos h]
  · rw [if_pos (show a.course ≠ "" ∧ strLower a.course = strLower course from ⟨h1, h2⟩)]
  · rw [if_neg (show ¬(a.course ≠ "" ∧ strLower a.course = strLower course) from
        fun hc => h2 hc.2), if_neg h1]
    exact zero_add _

/-- Witness for `course_bonus_characterization`: an activity with an
empty course string receives the `+15` universal bonus, and a
course-matching activity receives `+30`. -/
theorem course_bonus_characterization_witness :
    calculate_activity_score ⟨8, "Read", "Learning", 0, "Easy", "Solo", ""⟩ "CS" 30
        none none none
      = 15 + nonCourseScore ⟨8, "Read", "Learning", 0, "Easy", "Solo", ""⟩ 30
          none none none
    ∧ calculate_activity_score quizActivity "cs" 30 none none none
      = 30 + nonCourseScore quizActivity 30 none none none :=
  ⟨(course_bonus_characterization ⟨8, "Read", "Learning", 0, "Easy", "Solo", ""⟩
      "CS" 30 none none none).1 rfl,
   (course_bonus_characterization quizActivity "cs" 30 none none none).2.1
     (by decide) (by decide)⟩

/-- C2: `get_personalized_recommendations` is claimed to exclude the
activities of the student's ten *most recent* completed logs, but the
log list is most recent first (`order('start_time', desc=True)`) and
the code slices `completed_activities[-10:]`, the *last* ten elements,
i.e. the ten *oldest* completed logs.  Concretely, with eleven
completed logs (newest first: activity 100, then 1..10), activity 100
is among the ten most recent completed logs, yet the exclusion list is
`[1..10]` and the recommendation of activity 100 survives. -/
theorem personalization_excludes_oldest_not_most_recent :
    get_personalized_recommendations elevenCompletedLogs [quizActivity] "CS" 30
        (fun l => l)
      = [⟨quizActivity, 56⟩]
    ∧ ((completedLogs elevenCompletedLogs).take 10).map (fun l => l.activity_id)
      = [some 100, some 1, some 2, some 3, some 4,
         some 5, some 6, some 7, some 8, some 9]
    ∧ some 100 ∈ ((completedLogs elevenCompletedLogs).take 10).map
        (fun l => l.activity_id)
    ∧ recentCompletedIds elevenCompletedLogs
      = [some 1, some 2, some 3, some 4, some 5,
         some 6, some 7, some 8, some 9, some 10]
    ∧ some 100 ∉ recentCompletedIds elevenCompletedLogs := by
  decide

/-- C4 counterexample: the at-most-once guard of
`_detect_current_free_time` keys `active_sessions` by
`f"{student_id}_{day}"` alone.  With a session already recorded for
student 7 on Monday for the 08:00-09:00 window, a later Monday check
at 10:30 finds a *different* current window (10:00-11:00, confirmed by
`rt_get_current_free_slot`), yet no fresh notification is emitted and
the session map is unchanged — refuting the claim that a different
slot window on the same day produces a fresh notification. -/
theorem same_day_different_slot_is_suppressed :
    rt_get_current_free_slot ((csTimetables.lookup "CS").getD []) "Monday" ⟨10, 30, 0⟩
      = some gapSlot10to11
    ∧ (mondaySession.lookup (session_key 7 "Monday")).isSome = true
    ∧ mondaySession = [("7_Monday", ⟨"08:00", "09:00", true⟩)]
    ∧ (gapSlot10to11.start_time ≠ "08:00" ∧ gapSlot10to11.end_time ≠ "09:00")
    ∧ detect_current_free_time mondaySession [student7] csTimetables "Monday" ⟨10, 30, 0⟩
      = (mondaySession, []) := by
  decide

/-- C4 (amended): the guard of `_detect_current_free_time` is keyed by
(student id, day name) only.  A student whose `session_key` is present
is skipped — no notification and no state change — regardless of which
slot window is now current; when the key is absent and a free slot is
current, the notification is emitted and the key is inserted with the
slot window; and keys for the same student on different day names are
distinct, so a check under a new day name is fresh (the map is never
cleared, so the same weekday a week later remains suppressed for as
long as the process lives). -/
theorem session_guard_keyed_by_student_and_day :
    (∀ (sessions : List (String × SessionInfo)) (u : StudentUser)
        (timetables : List (String × List TimetableEntry)) (day : String) (now : Tm),
        (sessions.lookup (session_key u.id day)).isSome = true →
        detect_current_free_time sessions [u] timetables day now = (sessions, []))
    ∧ (∀ (sessions : List (String × SessionInfo)) (u : StudentUser)
        (timetables : List (String × List TimetableEntry)) (day : String) (now : Tm)
        (slot : RtSlot),
        u.course ≠ "" →
        sessions.lookup (session_key u.id day) = none →
        rt_get_current_free_slot ((timetables.lookup u.course).getD []) day now
          = some slot →
        detect_current_free_time sessions [u] timetables day now
          = (sessions ++ [(session_key u.id day,
                ⟨slot.start_time, slot.end_time, true⟩)],
             [(u.id, freeTimeMessage slot)]))
    ∧ (∀ (sid : ℕ) (d1 d2 : String), session_key sid d1 = session_key sid d2 → d1 = d2) := by
  refine ⟨?_, ?_, ?_⟩
  · intro sessions u timetables day now h
    unfold detect_current_free_time
    simp only [List.foldl]
    by_cases hc : u.course == ""
    · rw [if_pos hc]
    · rw [if_neg hc, if_pos h]
  · intro sessions u timetables day now slot hcourse hlookup hslot
    have hc : (u.course == "") = false := by
      simpa using hcourse
    unfold detect_current_free_time
    simp only [List.foldl, hc, Bool.false_eq_true, if_false, hlookup, hslot,
      Option.isSome_none, List.nil_append]
  · intro sid d1 d2 h
    have hdata : (toString sid ++ "_").data ++ d1.data
        = (toString sid ++ "_").data ++ d2.data := by
      have h2 := congrArg String.data h
      simpa [session_key, String.data_append] using h2
    have h3 : d1.data = d2.data := List.append_cancel_left hdata
    cases d1
    cases d2
    exact congrArg String.mk h3

/-- Witness for `session_guard_keyed_by_student_and_day`: with the key
present the Monday 10:30 check is suppressed; with an empty session
map the same check notifies student 7 and records the 10:00-11:00
window; and the Monday/Tuesday keys of student 7 differ. -/
theorem session_guard_keyed_witness :
    detect_current_free_time mondaySession [student7] csTimetables "Monday" ⟨10, 30, 0⟩
      = (mondaySession, [])
    ∧ detect_current_free_time [] [student7] csTimetables "Monday" ⟨10, 30, 0⟩
      = ([(session_key student7.id "Monday",
            ⟨gapSlot10to11.start_time, gapSlot10to11.end_time, true⟩)],
         [(student7.id, freeTimeMessage gapSlot10to11)])
    ∧ ("Monday" : String) = "Monday" :=
  ⟨session_guard_keyed_by_student_and_day.1 mondaySession student7 csTimetables
      "Monday" ⟨10, 30, 0⟩ (by decide),
   by
    have h := session_guard_keyed_by_student_and_day.2.1 [] student7 csTimetables
      "Monday" ⟨10, 30, 0⟩ gapSlot10to11 (by decide) (by decide) (by decide)
    simpa using h,
   session_guard_keyed_by_student_and_day.2.2 7 "Monday" "Monday" rfl⟩

/-- Lemma: `get_recommended_activities` unfolds to its empty guards, then the
stable descending sort of the shuffled scored pool. -/
theorem get_recommended_eq (all_activities : List Activity) (course : String)
    (duration_minutes : ℤ) (category difficulty mode : Option String)
    (shuffle : List ScoredActivity → List ScoredActivity) :
    get_recommended_activities all_activities course duration_minutes
        category difficulty mode shuffle
      = if all_activities.isEmpty then []
        else if (all_activities.filter fun a => a.duration_minutes ≤ duration_minutes).isEmpty
          then []
        else (shuffle (scoredOf all_activities course duration_minutes
            category difficulty mode)).insertionSort scoreGe := rfl

/-- The output of `get_recommended_activities` is a permutation of the
scored candidate pool whenever the shuffle is a permutation. -/
theorem recommended_perm (all_activities : List Activity) (course : String)
    (duration_minutes : ℤ) (category difficulty mode : Option String)
    (shuffle : List ScoredActivity → List ScoredActivity)
    (hsh : ∀ l : List ScoredActivity, (shuffle l).Perm l) :
    (get_recommended_activities all_activities course duration_minutes
        category difficulty mode shuffle).Perm
      (scoredOf all_activities course duration_minutes category difficulty mode) := by
  rw [get_recommended_eq]
  by_cases hA : all_activities.isEmpty
  · have : all_activities = [] := List.isEmpty_iff.mp hA
    subst this
    simp [scoredOf]
  · by_cases hS : (all_activities.filter fun a => a.duration_minutes ≤ duration_minutes).isEmpty
    · have h0 : (all_activities.filter fun a => a.duration_minutes ≤ duration_minutes) = [] :=
        List.isEmpty_iff.mp hS
    
      simp [hA, hS, scoredOf, h0]
    · simp only [hA, hS, Bool.false_eq_true, if_false]
      exact (List.perm_insertionSort scoreGe _).trans (hsh _)

/-- The output of `get_recommended_activities` is sorted by
non-increasing relevance score whenever it is produced at all. -/
theorem recommended_sorted (all_activities : List Activity) (course : String)
    (duration_minutes : ℤ) (category difficulty mode : Option String)
    (shuffle : List ScoredActivity → List ScoredActivity) :
    (get_recommended_activities all_activities course duration_minutes
        category difficulty mode shuffle).Pairwise
      (fun x y => y.relevance_score ≤ x.relevance_score) := by
  rw [get_recommended_eq]
  by_cases hA : all_activities.isEmpty
  · simp [hA]
  · by_cases hS : (all_activities.filter fun a => a.duration_minutes ≤ duration_minutes).isEmpty
    · simp [hA, hS]
    · simp only [hA, hS, Bool.false_eq_true, if_false]
      exact List.sorted_insertionSort scoreGe _

/-- C5: two runs of `get_recommended_activities` on identical inputs,
differing only in the shuffle permutation, return the same scored
activities as multisets; each run is sorted by non-increasing
relevance score; and in each run a strictly higher-scored element
always precedes a strictly lower-scored one — so only equal-score ties
can be ordered differently between the two runs. -/
theorem recommend_score_order_invariant (all_activities : List Activity)
    (course : String) (duration_minutes : ℤ)
    (category difficulty mode : Option String)
    (sh1 sh2 : List ScoredActivity → List ScoredActivity)
    (h1 : ∀ l : List ScoredActivity, (sh1 l).Perm l)
    (h2 : ∀ l : List ScoredActivity, (sh2 l).Perm l) :
    (get_recommended_activities all_activities course duration_minutes
        category difficulty mode sh1).Perm
      (get_recommended_activities all_activities course duration_minutes
        category difficulty mode sh2)
    ∧ (get_recommended_activities all_activities course duration_minutes
        category difficulty mode sh1).Pairwise
      (fun x y => y.relevance_score ≤ x.relevance_score)
    ∧ (get_recommended_activities all_activities course duration_minutes
        category difficulty mode sh2).Pairwise
      (fun x y => y.relevance_score ≤ x.relevance_score)
    ∧ (∀ i j : Fin (get_recommended_activities all_activities course duration_minutes
          category difficulty mode sh1).length,
        ((get_recommended_activities all_activities course duration_minutes
            category difficulty mode sh1).get j).relevance_score
          < ((get_recommended_activities all_activities course duration_minutes
            category difficulty mode sh1).get i).relevance_score → i < j)
    ∧ (∀ i j : Fin (get_recommended_activities all_activities course duration_minutes
          category difficulty mode sh2).length,
        ((get_recommended_activities all_activities course duration_minutes
            category difficulty mode sh2).get j).relevance_score
          < ((get_recommended_activities all_activities course duration_minutes
            category difficulty mode sh2).get i).relevance_score → i < j) := by
  have hsorted1 := recommended_sorted all_activities course duration_minutes
    category difficulty mode sh1
  have hsorted2 := recommended_sorted all_activities course duration_minutes
    category difficulty mode sh2
  have strict : ∀ (l : List ScoredActivity),
      l.Pairwise (fun x y => y.relevance_score ≤ x.relevance_score) →
      ∀ i j : Fin l.length,
        (l.get j).relevance_score < (l.get i).relevance_score → i < j := by
    intro l hp i j hij
    rcases lt_trichotomy i j with h | h | h
    · exact h
    · subst h
      exact absurd hij (lt_irrefl _)
    · have := List.pairwise_iff_get.mp hp j i h
      exact absurd (lt_of_lt_of_le hij this) (lt_irrefl _)
  refine ⟨?_, hsorted1, hsorted2, strict _ hsorted1, strict _ hsorted2⟩
  exact (recommended_perm all_activities course duration_minutes category
      difficulty mode sh1 h1).trans
    (recommended_perm all_activities course duration_minutes category
      difficulty mode sh2 h2).symm

/-- Witness for `recommend_score_order_invariant`: the identity
shuffle and list reversal are both permutations. -/
theorem recommend_score_order_invariant_witness :
    (get_recommended_activities [quizActivity, generalActivity] "CS" 30
        none none none (fun l => l)).Perm
      (get_recommended_activities [quizActivity, generalActivity] "CS" 30
        none none none List.reverse)
    ∧ (get_recommended_activities [quizActivity, generalActivity] "CS" 30
        none none none (fun l => l)).Pairwise
      (fun x y => y.relevance_score ≤ x.relevance_score) :=
  have h := recommend_score_order_invariant [quizActivity, generalActivity] "CS" 30
    none none none (fun l => l) List.reverse (fun l => List.Perm.refl l)
    (fun l => List.reverse_perm l)
  ⟨h.1, h.2.1⟩

/-- C6: every activity returned by `get_recommended_activities` fits
the requested duration budget — an activity with
`duration_minutes > budget` is filtered out before scoring and can
never reappear. -/
theorem recommend_respects_budget (all_activities : List Activity)
    (course : String) (duration_minutes : ℤ)
    (category difficulty mode : Option String)
    (shuffle : List ScoredActivity → List ScoredActivity)
    (hsh : ∀ l : List ScoredActivity, (shuffle l).Perm l) :
    ∀ s ∈ get_recommended_activities all_activities course duration_minutes
        category difficulty mode shuffle,
      s.activity.duration_minutes ≤ duration_minutes := by
  intro s hs
  have hperm := recommended_perm all_activities course duration_minutes
    category difficulty mode shuffle hsh
  have hmem : s ∈ scoredOf all_activities course duration_minutes
      category difficulty mode := hperm.mem_iff.mp hs
  unfold scoredOf at hmem
  obtain ⟨a, ha, rfl⟩ := List.mem_map.mp hmem
  have hfit := (List.mem_filter.mp ha).2
  exact of_decide_eq_true hfit

/-- Witness for `recommend_respects_budget`: the 30-minute pool with
the identity shuffle contains the 10-minute quiz activity, which fits. -/
theorem recommend_respects_budget_witness :
    ⟨quizActivity, 36⟩ ∈ get_recommended_activities
        [quizActivity, generalActivity] "CS" 30 none none none (fun l => l)
    ∧ (⟨quizActivity, 36⟩ : ScoredActivity).activity.duration_minutes ≤ 30 :=
  have hmem : ⟨quizActivity, 36⟩ ∈ get_recommended_activities
      [quizActivity, generalActivity] "CS" 30 none none none (fun l => l) := by decide
  ⟨hmem,
   recommend_respects_budget [quizActivity, generalActivity] "CS" 30 none none none
     (fun l => l) (fun l => List.Perm.refl l) _ hmem⟩

/-- C8: if excluding recently-completed activities would empty the
recommendation list, `get_personalized_recommendations` returns the
unfiltered recommendation list instead; hence it returns an empty list
only when the underlying recommendation list is itself empty, and its
output is either exactly as long as the empty-history call's output or
is the exclusion-filtered list itself — the recency exclusion is the
only way it can return fewer activities. -/
theorem personalize_falls_back_when_exclusion_empties
    (logs : List ActivityLog) (all_activities : List Activity)
    (course : String) (duration_minutes : ℤ)
    (sh sh0 : List ScoredActivity → List ScoredActivity)
    (hsh : ∀ l : List ScoredActivity, (sh l).Perm l)
    (hsh0 : ∀ l : List ScoredActivity, (sh0 l).Perm l) :
    ((get_recommended_activities all_activities course duration_minutes
          (preferredCategory logs) none none sh).filter
        (fun r => !((recentCompletedIds logs).contains (some r.activity.id))) = [] →
      get_personalized_recommendations logs all_activities course duration_minutes sh
        = get_recommended_activities all_activities course duration_minutes
            (preferredCategory logs) none none sh)
    ∧ (get_personalized_recommendations logs all_activities course duration_minutes sh
          = [] →
        get_recommended_activities all_activities course duration_minutes
          (preferredCategory logs) none none sh = [])
    ∧ ((get_personalized_recommendations logs all_activities course duration_minutes
          sh).length
        = (get_personalized_recommendations [] all_activities course duration_minutes
            sh0).length
      ∨ get_personalized_recommendations logs all_activities course duration_minutes sh
        = (get_recommended_activities all_activities course duration_minutes
            (preferredCategory logs) none none sh).filter
          (fun r => !((recentCompletedIds logs).contains (some r.activity.id)))) := by
  have hpers : get_personalized_recommendations logs all_activities course
      duration_minutes sh
      = if ((get_recommended_activities all_activities course duration_minutes
            (preferredCategory logs) none none sh).filter
          (fun r => !((recentCompletedIds logs).contains (some r.activity.id)))).isEmpty
        then get_recommended_activities all_activities course duration_minutes
          (preferredCategory logs) none none sh
        else (get_recommended_activities all_activities course duration_minutes
            (preferredCategory logs) none none sh).filter
          (fun r => !((recentCompletedIds logs).contains (some r.activity.id))) := rfl
  have hempty : get_personalized_recommendations [] all_activities course
      duration_minutes sh0
      = get_recommended_activities all_activities course duration_minutes
          none none none sh0 := by
    have h0 : preferredCategory ([] : List ActivityLog) = none := rfl
    have hr0 : recentCompletedIds ([] : List ActivityLog) = [] := rfl
    show (if (List.filter _ _).isEmpty then _ else _) = _
    rw [h0, hr0]
    simp [List.filter_true]
  refine ⟨?_, ?_, ?_⟩
  · intro h
    rw [hpers, h]
    simp
  · intro h
    rw [hpers] at h
    by_cases hf : ((get_recommended_activities all_activities course duration_minutes
        (preferredCategory logs) none none sh).filter
      (fun r => !((recentCompletedIds logs).contains (some r.activity.id)))).isEmpty
    · rwa [if_pos hf] at h
    · rw [if_neg hf] at h
      exact absurd (List.isEmpty_iff.mpr h) hf
  · by_cases hf : ((get_recommended_activities all_activities course duration_minutes
        (preferredCategory logs) none none sh).filter
      (fun r => !((recentCompletedIds logs).contains (some r.activity.id)))).isEmpty
    · left
      rw [hpers, if_pos hf, hempty]
      have hl1 := (recommended_perm all_activities course duration_minutes
        (preferredCategory logs) none none sh hsh).length_eq
      have hl2 := (recommended_perm all_activities course duration_minutes
        none none none sh0 hsh0).length_eq
      rw [hl1, hl2]
      simp [scoredOf]
    · right
      rw [hpers, if_neg hf]

/-- Witness for `personalize_falls_back_when_exclusion_empties`: a
single-activity catalog whose only activity (id 1) was completed in
the student's one completed log — the exclusion empties the list, and
the unfiltered single recommendation is returned. -/
theorem personalize_falls_back_witness :
    get_personalized_recommendations [⟨some 1, "completed", some "Learning"⟩]
        [⟨1, "Quiz", "Learning", 10, "Easy", "Solo", "CS"⟩] "CS" 30 (fun l => l)
      = get_recommended_activities [⟨1, "Quiz", "Learning", 10, "Easy", "Solo", "CS"⟩]
          "CS" 30 (preferredCategory [⟨some 1, "completed", some "Learning"⟩])
          none none (fun l => l)
    ∧ get_personalized_recommendations [⟨some 1, "completed", some "Learning"⟩]
        [⟨1, "Quiz", "Learning", 10, "Easy", "Solo", "CS"⟩] "CS" 30 (fun l => l) ≠ [] :=
  ⟨(personalize_falls_back_when_exclusion_empties
      [⟨some 1, "completed", some "Learning"⟩]
      [⟨1, "Quiz", "Learning", 10, "Easy", "Solo", "CS"⟩] "CS" 30 (fun l => l)
      (fun l => l) (fun l => List.Perm.refl l) (fun l => List.Perm.refl l)).1
    (by decide),
   by decide⟩

/-- The adjacent-pair loop of `detect_downtime_for_course` is the
`filterMap` of `gapSlotOfPair` over the list of adjacent pairs. -/
theorem gapSlotsAux_eq_filterMap (course day : String) (threshold : ℤ) (now : Tm) :
    ∀ l : List TimetableEntry,
      gapSlotsAux course day threshold now l
        = (l.zip l.tail).filterMap (gapSlotOfPair course day threshold now)
  | [] => rfl
  | [_] => rfl
  | a :: b :: rest => by
    have ih := gapSlotsAux_eq_filterMap course day threshold now (b :: rest)
    show (gapSlotOfPair course day threshold now (a, b)).toList ++
        gapSlotsAux course day threshold now (b :: rest) = _
    rw [ih, show (a :: b :: rest).tail = b :: rest from rfl, List.zip_cons_cons,
      List.filterMap_cons]
    cases gapSlotOfPair course day threshold now (a, b) <;> simp

/-- A pair that produces a gap slot gives it reason `timetable_gap`. -/
theorem gapSlotOfPair_reason {course day : String} {threshold : ℤ} {now : Tm}
    {p : TimetableEntry × TimetableEntry} {s : FreeSlot}
    (h : gapSlotOfPair course day threshold now p = some s) :
    s.reason = "timetable_gap" := by
  unfold gapSlotOfPair at h
  split at h
  · split at h
    · cases h
      rfl
    · exact absurd h (by simp)
  · exact absurd h (by simp)

/-- C1: on a timetable whose entries are exactly the day's scheduled
entries (all passing the day/status filter), already sorted by their
start-time key, `detect_downtime_for_course` is exactly the
per-adjacent-pair gap emission: the output is the `filterMap` of
`gapSlotOfPair` over adjacent pairs (one slot per adjacent pair whose
gap is at least the threshold — `gapSlotOfPair` emits on
`60·threshold ≤ gap_seconds`, so an exactly-threshold gap is emitted
and a threshold-minus-one-minute gap is not), its length is the count
of adjacent pairs meeting the threshold, and every emitted slot has
reason `timetable_gap` and arises from an adjacent pair — hence no
slot is ever emitted before the first scheduled class or after the
last one.  (The claim's non-overlap assumption is not even needed.) -/
theorem detect_gap_slots_one_per_adjacent_pair (entries : List TimetableEntry)
    (course day : String) (threshold : ℤ) (now : Tm)
    (hday : entries.all (entryIsScheduledOn day) = true)
    (hsorted : entries.Pairwise startKeyLe) :
    detect_downtime_for_course entries course day threshold now
        = (entries.zip entries.tail).filterMap
          (gapSlotOfPair course day threshold now)
    ∧ (detect_downtime_for_course entries course day threshold now).length
        = (entries.zip entries.tail).countP
          (fun p => (gapSlotOfPair course day threshold now p).isSome)
    ∧ ∀ s ∈ detect_downtime_for_course entries course day threshold now,
        s.reason = "timetable_gap"
        ∧ ∃ p ∈ entries.zip entries.tail,
            gapSlotOfPair course day threshold now p = some s := by
  have hfilter : entries.filter (entryIsScheduledOn day) = entries :=
    List.filter_eq_self.mpr (List.all_eq_true.mp hday)
  have hsort : entries.insertionSort startKeyLe = entries :=
    List.Sorted.insertionSort_eq hsorted
  have hmain : detect_downtime_for_course entries course day threshold now
      = (entries.zip entries.tail).filterMap
        (gapSlotOfPair course day threshold now) := by
    rcases entries with _ | ⟨e, es⟩
    · rfl
    · show (if (e :: es).isEmpty then []
        else
          let day_entries := (e :: es).filter (entryIsScheduledOn day)
          if day_entries.isEmpty then []
          else gapSlotsAux course day threshold now
            (day_entries.insertionSort startKeyLe)) = _
      rw [if_neg (by simp)]
      simp only [hfilter]
      rw [if_neg (by simp), hsort]
      exact gapSlotsAux_eq_filterMap course day threshold now (e :: es)
  refine ⟨hmain, ?_, ?_⟩
  · rw [hmain]
    exact List.length_filterMap_eq_countP _ _
  · intro s hs
    rw [hmain] at hs
    obtain ⟨p, hp, hfp⟩ := List.mem_filterMap.mp hs
    exact ⟨gapSlotOfPair_reason hfp, p, hp, hfp⟩

/-- Witness for `detect_gap_slots_one_per_adjacent_pair`: three sorted
scheduled Monday classes with a 30-minute gap (exactly the threshold,
emitted) and a 29-minute gap (one short, not emitted). -/
theorem detect_gap_slots_witness :
    detect_downtime_for_course [entryMon9, entryMon1030, entryMon1129]
        "CS" "Monday" 30 ⟨12, 0, 0⟩
      = ([entryMon9, entryMon1030, entryMon1129].zip
          [entryMon9, entryMon1030, entryMon1129].tail).filterMap
        (gapSlotOfPair "CS" "Monday" 30 ⟨12, 0, 0⟩)
    ∧ detect_downtime_for_course [entryMon9, entryMon1030, entryMon1129]
        "CS" "Monday" 30 ⟨12, 0, 0⟩
      = [⟨"CS", "Monday", "10:00", "10:30", 30, "timetable_gap", false, false,
          none, none⟩] :=
  ⟨(detect_gap_slots_one_per_adjacent_pair [entryMon9, entryMon1030, entryMon1129]
      "CS" "Monday" 30 ⟨12, 0, 0⟩ (by decide) (by decide)).1,
   by decide⟩
